import Mathlib

/-!
Verification of the connection-lifecycle and CRUD-handler core of the
nodejs-testcontainer-demo service.

The embedding covers `src/db.js` (the process-wide connection manager:
`connectToDatabase`, `closeDatabase`, `getDatabase`) and
`src/routes/items.js` (the five item handlers: create, list, get by id,
update by id, delete by id).  Stateful code is modelled by explicit state
passing: the module-level `client`/`db` variables of `db.js` become a
`DbState` record, the MongoDB `items` collection becomes a `List Item`
threaded through each handler, and each HTTP handler becomes a pure
function from its inputs (plus the clock value `now` and, for create, the
store-assigned id) to a `Response` and the resulting collection.
-/

/-- The module-level mutable state of `src/db.js`: `let client = null` and
`let db = null`.  Handles are modelled as `Nat` identifiers of the
underlying connection; `none` is JavaScript `null`. -/
structure DbState where
  client : Option Nat
  db : Option Nat
  deriving DecidableEq, Repr

/-- The state before any connect: both variables `null`. -/
def initialDbState : DbState := ⟨none, none⟩

/-- `connectToDatabase(uri)` from `src/db.js`.  `c` stands for the
`MongoClient` built for this call (and for the database handle
`client.db()` derived from it); `ok` is whether the underlying
`client.connect()` succeeds.  The code returns the existing `db` at once
when it is non-null; otherwise it assigns `client` first, then awaits the
connection: on failure the error is rethrown with `client` already
assigned but `db` still null. -/
def connectToDatabase (s : DbState) (c : Nat) (ok : Bool) :
    DbState × Except Unit Nat :=
  match s.db with
  | some d => (s, Except.ok d)
  | none =>
      if ok then (⟨some c, some c⟩, Except.ok c)
      else (⟨some c, none⟩, Except.error ())

/-- `closeDatabase()` from `src/db.js`: when `client` is non-null, close
it and reset both `client` and `db` to null; otherwise do nothing. -/
def closeDatabase (s : DbState) : DbState :=
  match s.client with
  | some _ => ⟨none, none⟩
  | none => s

/-- `getDatabase()` from `src/db.js`: return `db`, or throw
`Error('Database not connected. Call connectToDatabase first.')` when it
is null. -/
def getDatabase (s : DbState) : Except String Nat :=
  match s.db with
  | some d => Except.ok d
  | none => Except.error "Database not connected. Call connectToDatabase first."

/-- A document of the `items` collection.  `name` and `description` are
optional because the update handler writes the request-body values into
the document even when they are absent (`undefined`/null); `updatedAt` is
absent until the first update. -/
structure Item where
  id : String
  name : Option String
  description : Option String
  createdAt : Nat
  updatedAt : Option Nat
  deriving DecidableEq, Repr

/-- A JSON request body `{name?, description?}` as destructured by the
create and update handlers. -/
structure ReqBody where
  name : Option String
  description : Option String
  deriving DecidableEq, Repr

/-- The JSON payload a handler sends. -/
inductive ResBody where
  | errMsg (msg : String)
  | item (it : Item)
  | items (l : List Item)
  | message (msg : String)
  | nullBody
  deriving DecidableEq, Repr

/-- An HTTP response: status code plus JSON body. -/
structure Response where
  status : Nat
  body : ResBody
  deriving DecidableEq, Repr

/-- JavaScript truthiness of the destructured `name` field as used by
`if (!name)`: absent (`undefined`) and the empty string are falsy. -/
def isFalsyStr : Option String → Bool
  | none => true
  | some s => s == ""

/-- Hexadecimal digit, either case. -/
def isHexChar (c : Char) : Bool :=
  c.isDigit || ('a' ≤ c && c ≤ 'f') || ('A' ≤ c && c ≤ 'F')

/-- `ObjectId.isValid(id)` of the MongoDB driver for a string argument:
a 24-character hexadecimal string, or a 12-character (12-byte) string. -/
def ObjectId.isValid (s : String) : Bool :=
  (s.length == 24 && s.data.all isHexChar) || s.length == 12

/-- Canonical form of a stored identifier: 24-character hex ids compare
case-insensitively (`new ObjectId` parses either case into the same
bytes), 12-byte ids compare as-is. -/
def normId (s : String) : String :=
  if s.length == 24 then ⟨s.data.map Char.toLower⟩ else s

/-- Whether a stored `_id` matches the id in a `{_id: new ObjectId(id)}`
filter. -/
def idMatches (docId queryId : String) : Bool :=
  normId docId == normId queryId

/-- `collection.findOne({_id: new ObjectId(id)})`: the first document
matching the id, if any. -/
def findOneById : List Item → String → Option Item
  | [], _ => none
  | it :: rest, id =>
      if idMatches it.id id then some it else findOneById rest id

/-- `collection.findOneAndUpdate(filter, update, {returnDocument:
'after'})`: update the first matching document in place and return its
post-update value, or `none` when nothing matches. -/
def findOneAndUpdateAfter : List Item → String → (Item → Item) →
    Option Item × List Item
  | [], _, _ => (none, [])
  | it :: rest, id, f =>
      if idMatches it.id id then (some (f it), f it :: rest)
      else
        let p := findOneAndUpdateAfter rest id f
        (p.fst, it :: p.snd)

/-- `collection.deleteOne({_id: new ObjectId(id)})`: remove the first
matching document; the first component is `deletedCount`. -/
def deleteOneById : List Item → String → Nat × List Item
  | [], _ => (0, [])
  | it :: rest, id =>
      if idMatches it.id id then (1, rest)
      else
        let p := deleteOneById rest id
        (p.fst, it :: p.snd)

/-- `POST /items` from `src/routes/items.js`.  Checks `if (!name)` first,
then calls `getDatabase()` (a throw there is caught and mapped to 500),
inserts `{name, description: description || '', createdAt: now}` with the
store-assigned id `newId`, reads the inserted document back by that id,
and answers 201 with it. -/
def createItem (s : DbState) (store : List Item) (body : ReqBody)
    (now : Nat) (newId : String) : Response × List Item :=
  if isFalsyStr body.name then
    (⟨400, ResBody.errMsg "Name is required"⟩, store)
  else
    match getDatabase s with
    | Except.error _ => (⟨500, ResBody.errMsg "Failed to create item"⟩, store)
    | Except.ok _ =>
        let doc : Item :=
          { id := newId
            name := body.name
            description := some (Option.getD body.description "")
            createdAt := now
            updatedAt := none }
        let inserted := store ++ [doc]
        match findOneById inserted newId with
        | some it => (⟨201, ResBody.item it⟩, inserted)
        | none => (⟨201, ResBody.nullBody⟩, inserted)

/-- `GET /items`: `find().toArray()` on the collection, in natural
order; a `getDatabase()` throw maps to 500. -/
def listItems (s : DbState) (store : List Item) : Response :=
  match getDatabase s with
  | Except.error _ => ⟨500, ResBody.errMsg "Failed to fetch items"⟩
  | Except.ok _ => ⟨200, ResBody.items store⟩

/-- `GET /items/:id`: id-format check first, then `getDatabase()`, then
`findOne`; a missing document answers 404. -/
def getItemById (s : DbState) (store : List Item) (id : String) : Response :=
  if !(ObjectId.isValid id) then ⟨400, ResBody.errMsg "Invalid ID format"⟩
  else
    match getDatabase s with
    | Except.error _ => ⟨500, ResBody.errMsg "Failed to fetch item"⟩
    | Except.ok _ =>
        match findOneById store id with
        | none => ⟨404, ResBody.errMsg "Item not found"⟩
        | some it => ⟨200, ResBody.item it⟩

/-- `PUT /items/:id`: id-format check first, then `getDatabase()`, then
an atomic `findOneAndUpdate` that `$set`s `name` and `description` to the
body values (even when absent) and `updatedAt` to now, returning the
document after the update; `null` answers 404. -/
def updateItem (s : DbState) (store : List Item) (id : String)
    (body : ReqBody) (now : Nat) : Response × List Item :=
  if !(ObjectId.isValid id) then
    (⟨400, ResBody.errMsg "Invalid ID format"⟩, store)
  else
    match getDatabase s with
    | Except.error _ => (⟨500, ResBody.errMsg "Failed to update item"⟩, store)
    | Except.ok _ =>
        let p := findOneAndUpdateAfter store id (fun it =>
          { it with
              name := body.name
              description := body.description
              updatedAt := some now })
        match p.fst with
        | none => (⟨404, ResBody.errMsg "Item not found"⟩, p.snd)
        | some it => (⟨200, ResBody.item it⟩, p.snd)

/-- `DELETE /items/:id`: id-format check first, then `getDatabase()`,
then `deleteOne`; `deletedCount === 0` answers 404, otherwise 200 with a
success message. -/
def deleteItem (s : DbState) (store : List Item) (id : String) :
    Response × List Item :=
  if !(ObjectId.isValid id) then
    (⟨400, ResBody.errMsg "Invalid ID format"⟩, store)
  else
    match getDatabase s with
    | Except.error _ => (⟨500, ResBody.errMsg "Failed to delete item"⟩, store)
    | Except.ok _ =>
        let p := deleteOneById store id
        if p.fst == 0 then (⟨404, ResBody.errMsg "Item not found"⟩, p.snd)
        else (⟨200, ResBody.message "Item deleted successfully"⟩, p.snd)

/-! ## Helper lemmas on the collection operations -/

theorem findOneById_all_miss (store : List Item) (id : String)
    (h : ∀ it ∈ store, idMatches it.id id = false) :
    findOneById store id = none := by
  induction store with
  | nil => rfl
  | cons a l ih =>
      have ha : idMatches a.id id = false := h a (List.mem_cons_self a l)
      simp only [findOneById, ha, Bool.false_eq_true, if_false]
      exact ih (fun it hit => h it (List.mem_cons_of_mem a hit))

theorem findOneById_append_hit (store : List Item) (doc : Item) (id : String)
    (h : ∀ it ∈ store, idMatches it.id id = false)
    (hdoc : idMatches doc.id id = true) :
    findOneById (store ++ [doc]) id = some doc := by
  induction store with
  | nil => simp [findOneById, hdoc]
  | cons a l ih =>
      have ha : idMatches a.id id = false := h a (List.mem_cons_self a l)
      simp only [List.cons_append, findOneById, ha, Bool.false_eq_true, if_false]
      exact ih (fun it hit => h it (List.mem_cons_of_mem a hit))

theorem findOneAndUpdateAfter_all_miss (store : List Item) (id : String)
    (f : Item → Item) (h : ∀ it ∈ store, idMatches it.id id = false) :
    findOneAndUpdateAfter store id f = (none, store) := by
  induction store with
  | nil => rfl
  | cons a l ih =>
      have ha : idMatches a.id id = false := h a (List.mem_cons_self a l)
      simp only [findOneAndUpdateAfter, ha, Bool.false_eq_true, if_false]
      rw [ih (fun it hit => h it (List.mem_cons_of_mem a hit))]

theorem findOneAndUpdateAfter_split (pre : List Item) (it : Item)
    (post : List Item) (id : String) (f : Item → Item)
    (hpre : ∀ x ∈ pre, idMatches x.id id = false)
    (hit : idMatches it.id id = true) :
    findOneAndUpdateAfter (pre ++ it :: post) id f =
      (some (f it), pre ++ f it :: post) := by
  induction pre with
  | nil => simp [findOneAndUpdateAfter, hit]
  | cons a l ih =>
      have ha : idMatches a.id id = false := hpre a (List.mem_cons_self a l)
      simp only [List.cons_append, findOneAndUpdateAfter, ha,
        Bool.false_eq_true, if_false, List.append_eq]
      rw [ih (fun x hx => hpre x (List.mem_cons_of_mem a hx))]

theorem deleteOneById_all_miss (store : List Item) (id : String)
    (h : ∀ it ∈ store, idMatches it.id id = false) :
    deleteOneById store id = (0, store) := by
  induction store with
  | nil => rfl
  | cons a l ih =>
      have ha : idMatches a.id id = false := h a (List.mem_cons_self a l)
      simp only [deleteOneById, ha, Bool.false_eq_true, if_false]
      rw [ih (fun it hit => h it (List.mem_cons_of_mem a hit))]

/-! ## Claim theorems -/

/-- C1, counterexample: with the connection down (`getDatabase` failing),
a create request with a missing name is answered 400 "Name is required" —
a client error — because the handler validates `name` before calling
`getDatabase()`.  This refutes the claim that every operation calls
`getCurrent()` before any validation and that a failing `getCurrent()`
always yields a 500, never a client error. -/
theorem c1_getcurrent_first_counterexample :
    getDatabase initialDbState =
      Except.error "Database not connected. Call connectToDatabase first." ∧
    (createItem initialDbState [] ⟨none, none⟩ 0
        "aaaaaaaaaaaaaaaaaaaaaaaa").fst =
      ⟨400, ResBody.errMsg "Name is required"⟩ := by
  exact ⟨rfl, rfl⟩

/-- C1 (amended): each of the five operations calls `getCurrent()` before
any database work but after its input validation; whenever the inputs
pass validation and `getCurrent()` fails, the operation answers 500 (an
internal error) and leaves the collection unchanged. -/
theorem c1_getcurrent_before_db_work (s : DbState) (store : List Item)
    (body : ReqBody) (now : Nat) (newId : String) (id : String)
    (hdb : s.db = none)
    (hname : isFalsyStr body.name = false)
    (hid : ObjectId.isValid id = true) :
    createItem s store body now newId =
      (⟨500, ResBody.errMsg "Failed to create item"⟩, store) ∧
    listItems s store = ⟨500, ResBody.errMsg "Failed to fetch items"⟩ ∧
    getItemById s store id = ⟨500, ResBody.errMsg "Failed to fetch item"⟩ ∧
    updateItem s store id body now =
      (⟨500, ResBody.errMsg "Failed to update item"⟩, store) ∧
    deleteItem s store id =
      (⟨500, ResBody.errMsg "Failed to delete item"⟩, store) := by
  refine ⟨?_, ?_, ?_, ?_, ?_⟩ <;>
    simp [createItem, listItems, getItemById, updateItem, deleteItem,
      getDatabase, hdb, hname, hid]

/-- C1 (amended), witness at a concrete disconnected state. -/
theorem c1_getcurrent_before_db_work_witness :
    createItem ⟨none, none⟩ [] ⟨some "X", none⟩ 3 "a" =
      (⟨500, ResBody.errMsg "Failed to create item"⟩, []) ∧
    listItems ⟨none, none⟩ [] = ⟨500, ResBody.errMsg "Failed to fetch items"⟩ ∧
    getItemById ⟨none, none⟩ [] "507f1f77bcf86cd799439011" =
      ⟨500, ResBody.errMsg "Failed to fetch item"⟩ ∧
    updateItem ⟨none, none⟩ [] "507f1f77bcf86cd799439011" ⟨some "X", none⟩ 3 =
      (⟨500, ResBody.errMsg "Failed to update item"⟩, []) ∧
    deleteItem ⟨none, none⟩ [] "507f1f77bcf86cd799439011" =
      (⟨500, ResBody.errMsg "Failed to delete item"⟩, []) :=
  c1_getcurrent_before_db_work ⟨none, none⟩ [] ⟨some "X", none⟩ 3 "a"
    "507f1f77bcf86cd799439011" rfl (by decide) (by decide)

/-- C2: `connect(uri)` is idempotent — whenever the stored `db` handle
exists, a further `connectToDatabase` call leaves the state unchanged and
returns that same handle, whatever client the call would have built and
whether or not its connect attempt would have succeeded (no new
connection is attempted at all). -/
theorem c2_connect_idempotent (s : DbState) (d : Nat) (hd : s.db = some d)
    (c : Nat) (ok : Bool) :
    connectToDatabase s c ok = (s, Except.ok d) := by
  simp [connectToDatabase, hd]

/-- C2, witness: reconnecting on an established state returns the
existing handle unchanged. -/
theorem c2_connect_idempotent_witness :
    connectToDatabase ⟨some 1, some 1⟩ 2 false = (⟨some 1, some 1⟩, Except.ok 1) :=
  c2_connect_idempotent ⟨some 1, some 1⟩ 1 rfl 2 false

/-- C3: `close()` is idempotent and clears all connection state — it is a
no-op when no client exists, resets both references when one does, a
second close after a first is always a no-op, and a successful connect
after a close builds a fresh connection. -/
theorem c3_close_idempotent_clears (s : DbState) :
    (s.client = none → closeDatabase s = s) ∧
    (∀ k, s.client = some k → closeDatabase s = ⟨none, none⟩) ∧
    closeDatabase (closeDatabase s) = closeDatabase s ∧
    (∀ k c, s.client = some k →
      connectToDatabase (closeDatabase s) c true =
        (⟨some c, some c⟩, Except.ok c)) := by
  refine ⟨?_, ?_, ?_, ?_⟩
  · intro h
    simp [closeDatabase, h]
  · intro k h
    simp [closeDatabase, h]
  · cases hc : s.client with
    | none => simp [closeDatabase, hc]
    | some k => simp [closeDatabase, hc]
  · intro k c h
    simp [closeDatabase, h, connectToDatabase]

/-- C3, witness at a concrete connected state. -/
theorem c3_close_idempotent_clears_witness :
    closeDatabase ⟨some 5, some 5⟩ = ⟨none, none⟩ ∧
    closeDatabase (closeDatabase ⟨some 5, some 5⟩) =
      closeDatabase ⟨some 5, some 5⟩ ∧
    connectToDatabase (closeDatabase ⟨some 5, some 5⟩) 6 true =
      (⟨some 6, some 6⟩, Except.ok 6) :=
  ⟨(c3_close_idempotent_clears ⟨some 5, some 5⟩).2.1 5 rfl,
   (c3_close_idempotent_clears ⟨some 5, some 5⟩).2.2.1,
   (c3_close_idempotent_clears ⟨some 5, some 5⟩).2.2.2 5 6 rfl⟩

/-- C4: a create request whose `name` is absent or falsy (the empty
string included) answers 400 with exactly "Name is required" and leaves
the collection unchanged, in every connection state. -/
theorem c4_create_name_required (s : DbState) (store : List Item)
    (body : ReqBody) (now : Nat) (newId : String)
    (h : isFalsyStr body.name = true) :
    createItem s store body now newId =
      (⟨400, ResBody.errMsg "Name is required"⟩, store) := by
  simp [createItem, h]

/-- C4, witness: `name` present but empty, on a connected state with a
non-empty collection. -/
theorem c4_create_name_required_witness :
    createItem ⟨some 0, some 0⟩ [⟨"507f1f77bcf86cd799439011", some "A", some "", 1, none⟩]
        ⟨some "", some "D"⟩ 2 "507f1f77bcf86cd799439012" =
      (⟨400, ResBody.errMsg "Name is required"⟩,
       [⟨"507f1f77bcf86cd799439011", some "A", some "", 1, none⟩]) :=
  c4_create_name_required ⟨some 0, some 0⟩
    [⟨"507f1f77bcf86cd799439011", some "A", some "", 1, none⟩]
    ⟨some "", some "D"⟩ 2 "507f1f77bcf86cd799439012" (by decide)

/-- C5: a create request with a non-empty name on a connected state
inserts a document carrying that name, the given description (defaulting
to the empty string), `createdAt = now` and the store-assigned fresh id,
answers 201 with exactly that document, and a subsequent get by the
returned id yields the same document. -/
theorem c5_create_roundtrip (s : DbState) (d : Nat) (store : List Item)
    (body : ReqBody) (n : String) (now : Nat) (newId : String)
    (hdb : s.db = some d)
    (hname : body.name = some n) (hne : n ≠ "")
    (hfresh : ∀ it ∈ store, idMatches it.id newId = false)
    (hvalid : ObjectId.isValid newId = true) :
    createItem s store body now newId =
      (⟨201, ResBody.item
          ⟨newId, some n, some (Option.getD body.description ""), now, none⟩⟩,
       store ++ [⟨newId, some n, some (Option.getD body.description ""), now, none⟩]) ∧
    getItemById s
        (store ++ [⟨newId, some n, some (Option.getD body.description ""), now, none⟩])
        newId =
      ⟨200, ResBody.item
          ⟨newId, some n, some (Option.getD body.description ""), now, none⟩⟩ := by
  have hmatch : idMatches newId newId = true := by
    simp [idMatches]
  have hfind := findOneById_append_hit store
    ⟨newId, some n, some (Option.getD body.description ""), now, none⟩
    newId hfresh hmatch
  have hfalse : isFalsyStr body.name = false := by
    rw [hname]
    simp [isFalsyStr, hne]
  constructor
  · simp only [createItem, hfalse, Bool.false_eq_true, if_false,
      getDatabase, hdb, hname]
    rw [hfind]
    simp [isFalsyStr, hne]
  · simp [getItemById, hvalid, getDatabase, hdb, hfind]

/-- C5, witness: create `{name: "X", description: "Y"}` on an empty
collection, then get it back by the returned id. -/
theorem c5_create_roundtrip_witness :
    createItem ⟨some 0, some 0⟩ [] ⟨some "X", some "Y"⟩ 7
        "507f1f77bcf86cd799439011" =
      (⟨201, ResBody.item ⟨"507f1f77bcf86cd799439011", some "X", some "Y", 7, none⟩⟩,
       [⟨"507f1f77bcf86cd799439011", some "X", some "Y", 7, none⟩]) ∧
    getItemById ⟨some 0, some 0⟩
        [⟨"507f1f77bcf86cd799439011", some "X", some "Y", 7, none⟩]
        "507f1f77bcf86cd799439011" =
      ⟨200, ResBody.item ⟨"507f1f77bcf86cd799439011", some "X", some "Y", 7, none⟩⟩ :=
  c5_create_roundtrip ⟨some 0, some 0⟩ 0 [] ⟨some "X", some "Y"⟩ "X" 7
    "507f1f77bcf86cd799439011" rfl rfl (by decide)
    (fun it hit => absurd hit (List.not_mem_nil it)) (by decide)

/-- C6: on a syntactically invalid id, each of get by id, update by id
and delete by id answers 400 with exactly "Invalid ID format" and leaves
the collection unchanged; the responses do not depend on the connection
state at all, because the format check precedes the `getDatabase()` call
and any store lookup. -/
theorem c6_invalid_id_format (s : DbState) (store : List Item) (id : String)
    (body : ReqBody) (now : Nat)
    (h : ObjectId.isValid id = false) :
    getItemById s store id = ⟨400, ResBody.errMsg "Invalid ID format"⟩ ∧
    updateItem s store id body now =
      (⟨400, ResBody.errMsg "Invalid ID format"⟩, store) ∧
    deleteItem s store id =
      (⟨400, ResBody.errMsg "Invalid ID format"⟩, store) := by
  refine ⟨?_, ?_, ?_⟩ <;> simp [getItemById, updateItem, deleteItem, h]

/-- C6, witness at the spec's example id `"invalid-id"`, on a
disconnected state with a non-empty collection. -/
theorem c6_invalid_id_format_witness :
    getItemById ⟨none, none⟩ [⟨"507f1f77bcf86cd799439011", some "A", some "", 1, none⟩]
        "invalid-id" = ⟨400, ResBody.errMsg "Invalid ID format"⟩ ∧
    updateItem ⟨none, none⟩ [⟨"507f1f77bcf86cd799439011", some "A", some "", 1, none⟩]
        "invalid-id" ⟨some "B", none⟩ 2 =
      (⟨400, ResBody.errMsg "Invalid ID format"⟩,
       [⟨"507f1f77bcf86cd799439011", some "A", some "", 1, none⟩]) ∧
    deleteItem ⟨none, none⟩ [⟨"507f1f77bcf86cd799439011", some "A", some "", 1, none⟩]
        "invalid-id" =
      (⟨400, ResBody.errMsg "Invalid ID format"⟩,
       [⟨"507f1f77bcf86cd799439011", some "A", some "", 1, none⟩]) :=
  c6_invalid_id_format ⟨none, none⟩
    [⟨"507f1f77bcf86cd799439011", some "A", some "", 1, none⟩]
    "invalid-id" ⟨some "B", none⟩ 2 (by decide)

/-- C7: on a connected state, a well-formed id matching no document in
the collection makes each of get by id, update by id and delete by id
answer 404 with exactly "Item not found" (and leave the collection
unchanged). -/
theorem c7_not_found_symmetry (s : DbState) (d : Nat) (store : List Item)
    (id : String) (body : ReqBody) (now : Nat)
    (hdb : s.db = some d)
    (hvalid : ObjectId.isValid id = true)
    (hmiss : ∀ it ∈ store, idMatches it.id id = false) :
    getItemById s store id = ⟨404, ResBody.errMsg "Item not found"⟩ ∧
    updateItem s store id body now =
      (⟨404, ResBody.errMsg "Item not found"⟩, store) ∧
    deleteItem s store id = (⟨404, ResBody.errMsg "Item not found"⟩, store) := by
  have hfind := findOneById_all_miss store id hmiss
  have hupd := findOneAndUpdateAfter_all_miss store id
    (fun it => { it with
      name := body.name
      description := body.description
      updatedAt := some now }) hmiss
  have hdel := deleteOneById_all_miss store id hmiss
  refine ⟨?_, ?_, ?_⟩
  · simp [getItemById, hvalid, getDatabase, hdb, hfind]
  · simp only [updateItem, hvalid, Bool.not_true, Bool.false_eq_true,
      if_false, getDatabase, hdb]
    rw [hupd]
  · simp only [deleteItem, hvalid, Bool.not_true, Bool.false_eq_true,
      if_false, getDatabase, hdb]
    rw [hdel]
    simp

/-- C7, witness at the spec's example id on a collection holding one
other document. -/
theorem c7_not_found_symmetry_witness :
    getItemById ⟨some 0, some 0⟩ [⟨"aaaaaaaaaaaaaaaaaaaaaaaa", some "A", some "", 1, none⟩]
        "507f1f77bcf86cd799439011" = ⟨404, ResBody.errMsg "Item not found"⟩ ∧
    updateItem ⟨some 0, some 0⟩ [⟨"aaaaaaaaaaaaaaaaaaaaaaaa", some "A", some "", 1, none⟩]
        "507f1f77bcf86cd799439011" ⟨some "B", none⟩ 2 =
      (⟨404, ResBody.errMsg "Item not found"⟩,
       [⟨"aaaaaaaaaaaaaaaaaaaaaaaa", some "A", some "", 1, none⟩]) ∧
    deleteItem ⟨some 0, some 0⟩ [⟨"aaaaaaaaaaaaaaaaaaaaaaaa", some "A", some "", 1, none⟩]
        "507f1f77bcf86cd799439011" =
      (⟨404, ResBody.errMsg "Item not found"⟩,
       [⟨"aaaaaaaaaaaaaaaaaaaaaaaa", some "A", some "", 1, none⟩]) :=
  c7_not_found_symmetry ⟨some 0, some 0⟩ 0
    [⟨"aaaaaaaaaaaaaaaaaaaaaaaa", some "A", some "", 1, none⟩]
    "507f1f77bcf86cd799439011" ⟨some "B", none⟩ 2 rfl (by decide)
    (by intro it hit
        simp only [List.mem_singleton] at hit
        subst hit
        decide)

/-- C8: updating an existing item (connected state, well-formed id, one
matching document) sets `name` and `description` to the request-body
values — even when those are absent — and `updatedAt` to now, leaves
`id` and `createdAt` (and every other document) unchanged, and answers
200 with the document as it stands after the update. -/
theorem c8_update_semantics (s : DbState) (d : Nat) (pre : List Item)
    (it : Item) (post : List Item) (id : String) (body : ReqBody) (now : Nat)
    (hdb : s.db = some d)
    (hvalid : ObjectId.isValid id = true)
    (hpre : ∀ x ∈ pre, idMatches x.id id = false)
    (hit : idMatches it.id id = true) :
    updateItem s (pre ++ it :: post) id body now =
      (⟨200, ResBody.item
          { it with
              name := body.name
              description := body.description
              updatedAt := some now }⟩,
       pre ++ { it with
                  name := body.name
                  description := body.description
                  updatedAt := some now } :: post) := by
  have hupd := findOneAndUpdateAfter_split pre it post id
    (fun x => { x with
      name := body.name
      description := body.description
      updatedAt := some now }) hpre hit
  simp only [updateItem, hvalid, Bool.not_true, Bool.false_eq_true,
    if_false, getDatabase, hdb]
  rw [hupd]

/-- C8, witness: an update that clears `name` (absent in the body) and
replaces `description`, on a two-document collection; `id` and
`createdAt` of the target stay, the other document is untouched. -/
theorem c8_update_semantics_witness :
    updateItem ⟨some 0, some 0⟩
        [⟨"aaaaaaaaaaaaaaaaaaaaaaaa", some "A", some "Ad", 1, none⟩,
         ⟨"507f1f77bcf86cd799439011", some "B", some "Bd", 2, none⟩]
        "507f1f77bcf86cd799439011" ⟨none, some "C"⟩ 9 =
      (⟨200, ResBody.item ⟨"507f1f77bcf86cd799439011", none, some "C", 2, some 9⟩⟩,
       [⟨"aaaaaaaaaaaaaaaaaaaaaaaa", some "A", some "Ad", 1, none⟩,
        ⟨"507f1f77bcf86cd799439011", none, some "C", 2, some 9⟩]) :=
  c8_update_semantics ⟨some 0, some 0⟩ 0
    [⟨"aaaaaaaaaaaaaaaaaaaaaaaa", some "A", some "Ad", 1, none⟩]
    ⟨"507f1f77bcf86cd799439011", some "B", some "Bd", 2, none⟩ []
    "507f1f77bcf86cd799439011" ⟨none, some "C"⟩ 9 rfl (by decide)
    (by intro x hx
        simp only [List.mem_singleton] at hx
        subst hx
        decide)
    (by decide)

/-- C9: the update handler performs no presence or non-emptiness
validation on `name`: with a well-formed id its response is never a 400,
whatever the body (name absent or empty included) and whatever the
connection and collection state. -/
theorem c9_update_no_name_validation (s : DbState) (store : List Item)
    (id : String) (body : ReqBody) (now : Nat)
    (hvalid : ObjectId.isValid id = true) :
    (updateItem s store id body now).fst.status ≠ 400 := by
  simp only [updateItem, hvalid, Bool.not_true, Bool.false_eq_true, if_false]
  cases getDatabase s with
  | error e => simp
  | ok d =>
      simp only []
      cases h : (findOneAndUpdateAfter store id (fun it =>
          { it with
              name := body.name
              description := body.description
              updatedAt := some now })).fst with
      | none => simp [h]
      | some it => simp [h]

/-- C9, witness: an update whose body has no `name` at all, on a
well-formed id, does not answer 400. -/
theorem c9_update_no_name_validation_witness :
    (updateItem ⟨some 0, some 0⟩
        [⟨"507f1f77bcf86cd799439011", some "B", some "Bd", 2, none⟩]
        "507f1f77bcf86cd799439011" ⟨none, none⟩ 9).fst.status ≠ 400 :=
  c9_update_no_name_validation ⟨some 0, some 0⟩
    [⟨"507f1f77bcf86cd799439011", some "B", some "Bd", 2, none⟩]
    "507f1f77bcf86cd799439011" ⟨none, none⟩ 9 (by decide)

/-- C10: no partially established connection is ever exposed — when no
database handle is stored and the connect attempt fails, the call throws,
the stored `db` handle stays null, `getDatabase` keeps failing with the
not-connected error, and only a later successful connect installs a
handle (after which `getDatabase` returns it). -/
theorem c10_no_partial_connection (s : DbState) (c : Nat)
    (h : s.db = none) :
    (connectToDatabase s c false).snd = Except.error () ∧
    (connectToDatabase s c false).fst.db = none ∧
    getDatabase (connectToDatabase s c false).fst =
      Except.error "Database not connected. Call connectToDatabase first." ∧
    (∀ c2, connectToDatabase (connectToDatabase s c false).fst c2 true =
      (⟨some c2, some c2⟩, Except.ok c2)) ∧
    (∀ c2, getDatabase
        (connectToDatabase (connectToDatabase s c false).fst c2 true).fst =
      Except.ok c2) := by
  refine ⟨?_, ?_, ?_, ?_, ?_⟩ <;>
    simp [connectToDatabase, getDatabase, h]

/-- C10, witness: a failed connect from the fresh state leaves
`getDatabase` failing, and a later successful connect repairs it. -/
theorem c10_no_partial_connection_witness :
    (connectToDatabase initialDbState 1 false).snd = Except.error () ∧
    getDatabase (connectToDatabase initialDbState 1 false).fst =
      Except.error "Database not connected. Call connectToDatabase first." ∧
    getDatabase
        (connectToDatabase (connectToDatabase initialDbState 1 false).fst 2 true).fst =
      Except.ok 2 :=
  ⟨(c10_no_partial_connection initialDbState 1 rfl).1,
   (c10_no_partial_connection initialDbState 1 rfl).2.2.1,
   (c10_no_partial_connection initialDbState 1 rfl).2.2.2.2 2⟩
